import Mathlib

/-!
Verification of the OpenStack MCP server's query pipeline (filter, limit,
detail-tier projection, formatting, and query-processor orchestration) against
a shallow embedding of the Python source in `src/mcp_openstack_http/`.

Python dictionaries and SDK resource records are embedded as association
lists of `Val`, Python exceptions as `Option`/`Except` failures, and the
blocking fetch step as an explicit `Except`-valued argument.
-/

set_option maxHeartbeats 1000000

namespace OpenStackMCP

/-- lowercases a string character by character, modelling Python `str.lower`
on the ASCII identifiers these records carry. -/
def lowerChars (s : String) : List Char :=
  s.data.map Char.toLower

/-- decides whether `needle` occurs as a contiguous run inside `hay`,
modelling Python's `needle in hay` on strings. -/
def hasSubstr (needle : List Char) : List Char → Bool
  | [] => needle.isEmpty
  | c :: t => needle.isPrefixOf (c :: t) || hasSubstr needle t

/-- case-sensitive substring test: Python `needle in hay`. -/
def containsCS (hay needle : String) : Bool :=
  hasSubstr needle.data hay.data

/-- case-insensitive substring test: Python `needle.lower() in hay.lower()`. -/
def containsCI (hay needle : String) : Bool :=
  hasSubstr (lowerChars needle) (lowerChars hay)

/-- a Python value as it appears in the resource records the server handles:
strings, integers, booleans, None, lists and dictionaries. -/
inductive Val where
  | str (s : String)
  | int (n : Int)
  | bool (b : Bool)
  | null
  | list (xs : List Val)
  | dict (fields : List (String × Val))

/-- a resource record (or Python dictionary): an ordered association list of
field names to values. -/
abbrev Rec := List (String × Val)

/-- looks a field up in a record; `none` models an absent attribute or key. -/
def lookupRec : Rec → String → Option Val
  | [], _ => none
  | (k, v) :: rest, key => if k = key then some v else lookupRec rest key

/-- Python truthiness of a value. -/
def truthy : Val → Bool
  | .str s => s != ""
  | .int n => n != 0
  | .bool b => b
  | .null => false
  | .list xs => !xs.isEmpty
  | .dict xs => !xs.isEmpty

/-- Python `==` comparison of a value against a string literal: only a string
with the same characters compares equal. -/
def valEqStr : Val → String → Bool
  | .str t, s => t == s
  | _, _ => false

/-- recognizes Python None. -/
def isNull : Val → Bool
  | .null => true
  | _ => false

/-- keeps only the non-null fields of a raw record, modelling the
`{k: v for k, v in record.to_dict().items() if v is not None}` comprehension
of every full detail tier. -/
def dropNulls (r : Rec) : Rec :=
  r.filter (fun p => !(isNull p.2))

/-- Python dictionary assignment `d[k] = v`: replaces the value in place when
the key exists, otherwise appends the new pair. -/
def setKey : Rec → String → Val → Rec
  | [], k, v => [(k, v)]
  | (k0, v0) :: rest, k, v =>
    if k0 = k then (k, v) :: rest else (k0, v0) :: setKey rest k v

/-- Python `getattr(record, k, default)` / `record.get(k, default)`: the
default applies only when the field is absent, never when it is None. -/
def getattrD (r : Rec) (k : String) (d : Val) : Val :=
  (lookupRec r k).getD d

/-- Python `record.get(k)`: absent fields read as None. -/
def getOrNone (r : Rec) (k : String) : Val :=
  getattrD r k .null

mutual

/-- Python `repr` of a value; string escaping is not modelled because the
records under test carry no quotes. -/
def pyRepr : Val → String
  | .str s => "\x27" ++ s ++ "\x27"
  | .int n => toString n
  | .bool b => if b then "True" else "False"
  | .null => "None"
  | .list xs => "[" ++ pyReprList xs ++ "]"
  | .dict xs => "\x7b" ++ pyReprDict xs ++ "\x7d"

/-- comma-separated reprs of list elements. -/
def pyReprList : List Val → String
  | [] => ""
  | [v] => pyRepr v
  | v :: rest => pyRepr v ++ ", " ++ pyReprList rest

/-- comma-separated reprs of dictionary items. -/
def pyReprDict : List (String × Val) → String
  | [] => ""
  | [(k, v)] => "\x27" ++ k ++ "\x27: " ++ pyRepr v
  | (k, v) :: rest => "\x27" ++ k ++ "\x27: " ++ pyRepr v ++ ", " ++ pyReprDict rest

end

/-- Python `str()` of a value as interpolated by the formatters' f-strings. -/
def pyStr : Val → String
  | .str s => s
  | v => pyRepr v

mutual

/-- Python `json.dumps(..., ensure_ascii=False)` with the default separators. -/
def jsonDumps : Val → String
  | .str s => "\"" ++ s ++ "\""
  | .int n => toString n
  | .bool b => if b then "true" else "false"
  | .null => "null"
  | .list xs => "[" ++ jsonDumpsList xs ++ "]"
  | .dict xs => "\x7b" ++ jsonDumpsDict xs ++ "\x7d"

/-- comma-separated JSON serializations of list elements. -/
def jsonDumpsList : List Val → String
  | [] => ""
  | [v] => jsonDumps v
  | v :: rest => jsonDumps v ++ ", " ++ jsonDumpsList rest

/-- comma-separated JSON serializations of dictionary items. -/
def jsonDumpsDict : List (String × Val) → String
  | [] => ""
  | [(k, v)] => "\"" ++ k ++ "\": " ++ jsonDumps v
  | (k, v) :: rest => "\"" ++ k ++ "\": " ++ jsonDumps v ++ ", " ++ jsonDumpsDict rest

end

/-- evaluates a Python list-comprehension filter whose predicate may raise:
the first raising element aborts the whole comprehension. -/
def pyFilter (p : α → Option Bool) : List α → Option (List α)
  | [] => some []
  | a :: as =>
    match p a with
    | none => none
    | some b =>
      match pyFilter p as with
      | none => none
      | some rest => some (if b then a :: rest else rest)

/-- maps a possibly-raising function over a list, failing on the first raise. -/
def mapOpt (f : α → Option β) : List α → Option (List β)
  | [] => some []
  | a :: as =>
    match f a with
    | none => none
    | some b =>
      match mapOpt f as with
      | none => none
      | some bs => some (b :: bs)

/-- Python dictionary subscript `d[k]`: a missing key raises KeyError, whose
`str()` form (the quoted key) is the carried error text. -/
def getKey (r : Rec) (k : String) : Except String Val :=
  match lookupRec r k with
  | some v => .ok v
  | none => .error ("\x27" ++ k ++ "\x27")

/-- Python short-circuit `or` over possibly-raising boolean clauses. -/
def orO : Option Bool → Option Bool → Option Bool
  | some true, _ => some true
  | some false, b => b
  | none, _ => none

/-- the id clause shared by the name-or-id filters:
`filter_value in x.id`, raising unless the id attribute is a string. -/
def idClause (r : Rec) (filter_value : String) : Option Bool :=
  match lookupRec r "id" with
  | some (.str i) => some (containsCS i filter_value)
  | _ => none

/-- filter predicate of `get_instances` in `os_server.py`:
`filter_value.lower() in s.name.lower() or filter_value in s.id`.
The name clause has no presence guard, so a missing or null name
raises (modelled as `none`) instead of evaluating false. -/
def instance_match (filter_value : String) (r : Rec) : Option Bool :=
  match lookupRec r "name" with
  | some (.str s) =>
    if containsCI s filter_value then some true else idClause r filter_value
  | _ => none

/-- filter predicate shared by `get_volumes`, `get_networks` and `get_images`:
`(x.name and filter_value.lower() in x.name.lower()) or filter_value in x.id`.
A null or empty name makes the first clause false; a missing name attribute
raises; a truthy non-string name raises at `.lower()`. -/
def name_id_match (filter_value : String) (r : Rec) : Option Bool :=
  match lookupRec r "name" with
  | none => none
  | some nm =>
    if truthy nm then
      match nm with
      | .str s =>
        if containsCI s filter_value then some true else idClause r filter_value
      | _ => none
    else idClause r filter_value

/-- one hasattr-guarded case-insensitive clause:
`hasattr(s, k) and filter_value.lower() in getattr(s, k).lower()`.
An absent field is false; a present non-string raises at `.lower()`. -/
def hasattrCI (r : Rec) (k : String) (filter_value : String) : Option Bool :=
  match lookupRec r k with
  | none => some false
  | some (.str s) => some (containsCI s filter_value)
  | some _ => none

/-- one hasattr-guarded case-sensitive clause:
`hasattr(s, k) and filter_value in getattr(s, k)`. -/
def hasattrCS (r : Rec) (k : String) (filter_value : String) : Option Bool :=
  match lookupRec r k with
  | none => some false
  | some (.str s) => some (containsCS s filter_value)
  | some _ => none

/-- filter predicate of `get_compute_services` in `os_compute_service.py`:
binary or host case-insensitively, or id case-sensitively, each clause
guarded by hasattr. -/
def compute_service_match (filter_value : String) (r : Rec) : Option Bool :=
  orO (hasattrCI r "binary" filter_value)
    (orO (hasattrCI r "host" filter_value) (hasattrCS r "id" filter_value))

/-- filter predicate of `get_network_agents` in `os_network_agent.py`. -/
def network_agent_match (filter_value : String) (r : Rec) : Option Bool :=
  orO (hasattrCI r "agent_type" filter_value)
    (orO (hasattrCI r "host" filter_value) (hasattrCS r "id" filter_value))

/-- filter predicate of `get_services` in `os_service.py` (identity services). -/
def identity_service_match (filter_value : String) (r : Rec) : Option Bool :=
  orO (hasattrCI r "name" filter_value)
    (orO (hasattrCI r "type" filter_value) (hasattrCS r "id" filter_value))

/-- filter stage of `get_instances`: skipped entirely on an empty filter. -/
def filter_instances (filter_value : String) (rs : List Rec) : Option (List Rec) :=
  if filter_value = "" then some rs else pyFilter (instance_match filter_value) rs

/-- filter stage of `get_volumes`. -/
def filter_volumes (filter_value : String) (rs : List Rec) : Option (List Rec) :=
  if filter_value = "" then some rs else pyFilter (name_id_match filter_value) rs

/-- filter stage of `get_networks`. -/
def filter_networks (filter_value : String) (rs : List Rec) : Option (List Rec) :=
  if filter_value = "" then some rs else pyFilter (name_id_match filter_value) rs

/-- filter stage of `get_images`. -/
def filter_images (filter_value : String) (rs : List Rec) : Option (List Rec) :=
  if filter_value = "" then some rs else pyFilter (name_id_match filter_value) rs

/-- filter stage of `get_compute_services`. -/
def filter_compute_services (filter_value : String) (rs : List Rec) : Option (List Rec) :=
  if filter_value = "" then some rs else pyFilter (compute_service_match filter_value) rs

/-- filter stage of `get_network_agents`. -/
def filter_network_agents (filter_value : String) (rs : List Rec) : Option (List Rec) :=
  if filter_value = "" then some rs else pyFilter (network_agent_match filter_value) rs

/-- filter stage of `get_services` (identity services). -/
def filter_identity_services (filter_value : String) (rs : List Rec) : Option (List Rec) :=
  if filter_value = "" then some rs else pyFilter (identity_service_match filter_value) rs

/-- per-record projection of `get_volumes` for a detail level: the basic and
detailed tiers read id, name, status and size as attributes (raising when one
is missing), the detailed tier adds defaulted secondary fields, and every
other detail level falls through to the full tier's non-null field dump. -/
def project_volume (detail_level : String) (r : Rec) : Option Rec :=
  if detail_level = "basic" then
    match lookupRec r "id", lookupRec r "name", lookupRec r "status", lookupRec r "size" with
    | some i, some n, some st, some sz =>
      some [("id", i), ("name", n), ("status", st), ("size", sz)]
    | _, _, _, _ => none
  else if detail_level = "detailed" then
    match lookupRec r "id", lookupRec r "name", lookupRec r "status", lookupRec r "size" with
    | some i, some n, some st, some sz =>
      some [("id", i), ("name", n), ("status", st), ("size", sz),
        ("volume_type", getattrD r "volume_type" (.str "未知")),
        ("bootable", getattrD r "bootable" (.bool false)),
        ("created_at", getattrD r "created_at" (.str "未知")),
        ("attachments", getattrD r "attachments" (.list [])),
        ("availability_zone", getattrD r "availability_zone" (.str "未知"))]
    | _, _, _, _ => none
  else
    some (dropNulls r)

/-- `get_volumes` of `os_volume.py`, modelled over an already-fetched record
list: filter, truncate to `limit`, then project each survivor. -/
def get_volumes (filter_value : String) (limit : Nat) (detail_level : String)
    (fetched : List Rec) : Option (List Rec) :=
  match filter_volumes filter_value fetched with
  | none => none
  | some vs => mapOpt (project_volume detail_level) (vs.take limit)

/-- renders the bootable flag the way `format_volumes_summary` does: the
source compares the projected value against the string literal "true". -/
def bootableToken (b : Val) : String :=
  if valEqStr b "true" then "是" else "否"

/-- renders a flag by Python truthiness, as the network formatter does for
its shared and external booleans. -/
def truthyToken (b : Val) : String :=
  if truthy b then "是" else "否"

/-- tier-gated extra lines of `format_volumes_summary`; these presence-checked
lines are total. -/
def volume_detail_lines (detail_level : String) (v : Rec) : String :=
  if detail_level = "basic" then "" else
    (match lookupRec v "created_at" with
     | some c => "   创建时间: " ++ pyStr c ++ "\n"
     | none => "") ++
    (match lookupRec v "volume_type" with
     | some t => "   卷类型: " ++ pyStr t ++ "\n"
     | none => "") ++
    (match lookupRec v "bootable" with
     | some b => "   可启动: " ++ bootableToken b ++ "\n"
     | none => "") ++
    (match lookupRec v "availability_zone" with
     | some z => "   可用区: " ++ pyStr z ++ "\n"
     | none => "") ++
    (match lookupRec v "attachments" with
     | some a => if truthy a then "   挂载信息: " ++ jsonDumps a ++ "\n" else ""
     | none => "")

/-- one enumerated block of `format_volumes_summary`; the headline id, name,
status and size are dictionary subscripts that can raise KeyError. -/
def volume_entry (idx : Nat) (detail_level : String) (v : Rec) : Except String String := do
  let i ← getKey v "id"
  let n ← getKey v "name"
  let st ← getKey v "status"
  let sz ← getKey v "size"
  pure (toString idx ++ ". ID: " ++ pyStr i ++ "\n" ++
    "   名称: " ++ (if truthy n then pyStr n else "未命名") ++ "\n" ++
    "   状态: " ++ pyStr st ++ "\n" ++
    "   大小: " ++ pyStr sz ++ " GB\n" ++
    volume_detail_lines detail_level v ++ "\n")

/-- the enumerated blocks of `format_volumes_summary` from a starting index. -/
def volume_entries (detail_level : String) (idx : Nat) : List Rec → Except String String
  | [] => .ok ""
  | v :: rest => do
    let s ← volume_entry idx detail_level v
    let srest ← volume_entries detail_level (idx + 1) rest
    pure (s ++ srest)

/-- `format_volumes_summary` of `os_volume.py`, with KeyError carried in
`Except` as its stringified form. -/
def format_volumes_summary (volumes : List Rec) (detail_level : String) : Except String String :=
  if volumes.isEmpty then .ok "未找到符合条件的OpenStack卷。"
  else do
    let body ← volume_entries detail_level 1 volumes
    pure ("找到 " ++ toString volumes.length ++ " 个OpenStack卷:\n\n" ++ body)

/-- tier-gated extra lines of `format_instances_summary`. -/
def instance_detail_lines (detail_level : String) (inst : Rec) : String :=
  if detail_level = "basic" then "" else
    (match lookupRec inst "created_at" with
     | some c => "   创建时间: " ++ pyStr c ++ "\n"
     | none => "") ++
    (match lookupRec inst "flavor" with
     | some fl => if !(valEqStr fl "未知") then "   规格: " ++ pyStr fl ++ "\n" else ""
     | none => "") ++
    (match lookupRec inst "addresses" with
     | some a => "   网络地址: " ++ jsonDumps a ++ "\n"
     | none => "")

/-- one enumerated block of `format_instances_summary`. -/
def instance_entry (idx : Nat) (detail_level : String) (inst : Rec) : Except String String := do
  let i ← getKey inst "id"
  let n ← getKey inst "name"
  let st ← getKey inst "status"
  pure (toString idx ++ ". ID: " ++ pyStr i ++ "\n" ++
    "   名称: " ++ pyStr n ++ "\n" ++
    "   状态: " ++ pyStr st ++ "\n" ++
    instance_detail_lines detail_level inst ++ "\n")

/-- the enumerated blocks of `format_instances_summary` from a starting index. -/
def instance_entries (detail_level : String) (idx : Nat) : List Rec → Except String String
  | [] => .ok ""
  | v :: rest => do
    let s ← instance_entry idx detail_level v
    let srest ← instance_entries detail_level (idx + 1) rest
    pure (s ++ srest)

/-- `format_instances_summary` of `os_server.py`. -/
def format_instances_summary (instances : List Rec) (detail_level : String) : Except String String :=
  if instances.isEmpty then .ok "未找到符合条件的OpenStack实例。"
  else do
    let body ← instance_entries detail_level 1 instances
    pure ("找到 " ++ toString instances.length ++ " 个OpenStack实例:\n\n" ++ body)

/-- Python `", ".join` over the elements of a list value; joining anything
other than a list of strings raises. -/
def joinStrs : List Val → Except String String
  | [] => .ok ""
  | [.str s] => .ok s
  | .str s :: rest => do
    let r ← joinStrs rest
    pure (s ++ ", " ++ r)
  | _ :: _ => .error "TypeError"

/-- Python `", ".join(v)` for a value expected to be a list of strings. -/
def joinComma : Val → Except String String
  | .list xs => joinStrs xs
  | _ => .error "TypeError"

/-- the external flag read of the network formatter:
`network.get(\x27is_external\x27, network.get(\x27router:external\x27, False))`. -/
def networkExternal (n : Rec) : Val :=
  match lookupRec n "is_external" with
  | some v => v
  | none => getattrD n "router:external" (.bool false)

/-- tier-gated extra lines of `format_networks_summary`; the subnet and
availability-zone joins can raise on malformed values. -/
def network_detail_lines (detail_level : String) (n : Rec) : Except String String :=
  if detail_level = "basic" then .ok "" else do
    let s3 ← (match lookupRec n "subnets" with
      | some sb =>
        if truthy sb then do
          let j ← joinComma sb
          pure ("   子网: " ++ j ++ "\n")
        else pure ""
      | none => pure "")
    let s4 ← (match lookupRec n "availability_zones" with
      | some az =>
        if truthy az then do
          let j ← joinComma az
          pure ("   可用区: " ++ j ++ "\n")
        else pure ""
      | none => pure "")
    pure ((match lookupRec n "created_at" with
      | some c => "   创建时间: " ++ pyStr c ++ "\n"
      | none => "") ++
      (match lookupRec n "mtu" with
       | some m => if truthy m then "   MTU: " ++ pyStr m ++ "\n" else ""
       | none => "") ++
      s3 ++ s4 ++
      (match lookupRec n "project_id" with
       | some p => "   项目ID: " ++ pyStr p ++ "\n"
       | none => ""))

/-- one enumerated block of `format_networks_summary`. -/
def network_entry (idx : Nat) (detail_level : String) (n : Rec) : Except String String := do
  let i ← getKey n "id"
  let nm ← getKey n "name"
  let st ← getKey n "status"
  let details ← network_detail_lines detail_level n
  pure (toString idx ++ ". ID: " ++ pyStr i ++ "\n" ++
    "   名称: " ++ (if truthy nm then pyStr nm else "未命名") ++ "\n" ++
    "   状态: " ++ pyStr st ++ "\n" ++
    "   共享: " ++ truthyToken (getOrNone n "is_shared") ++ "\n" ++
    "   外部网络: " ++ truthyToken (networkExternal n) ++ "\n" ++
    details ++ "\n")

/-- the enumerated blocks of `format_networks_summary` from a starting index. -/
def network_entries (detail_level : String) (idx : Nat) : List Rec → Except String String
  | [] => .ok ""
  | v :: rest => do
    let s ← network_entry idx detail_level v
    let srest ← network_entries detail_level (idx + 1) rest
    pure (s ++ srest)

/-- `format_networks_summary` of `os_network.py`. -/
def format_networks_summary (networks : List Rec) (detail_level : String) : Except String String :=
  if networks.isEmpty then .ok "未找到符合条件的OpenStack网络。"
  else do
    let body ← network_entries detail_level 1 networks
    pure ("找到 " ++ toString networks.length ++ " 个OpenStack网络:\n\n" ++ body)

/-- left-pads a sub-hundred numeral to two digits. -/
def pad2 (n : Nat) : String :=
  if n < 10 then "0" ++ toString n else toString n

/-- renders num/den with two decimals rounding half to even; Python divides
the byte count by a power of two — exact in binary floating point at these
magnitudes — and then ".2f" rounds the exact quotient half to even, which
this integer computation reproduces. -/
def twoDecimals (num den : Nat) : String :=
  let q := num * 100 / den
  let rem := num * 100 % den
  let h :=
    if 2 * rem < den then q
    else if den < 2 * rem then q + 1
    else if q % 2 = 0 then q else q + 1
  toString (h / 100) ++ "." ++ pad2 (h % 100)

/-- the size line of `format_images_summary`: bytes to MB, promoted to GB
above 1024 MB; a falsy size renders as zero, a truthy non-integer raises. -/
def image_size_line (img : Rec) : Except String String :=
  let sv := getOrNone img "size"
  if truthy sv then
    match sv with
    | .int b =>
      if b.toNat > 1024 * 1024 * 1024 then
        .ok ("   大小: " ++ twoDecimals b.toNat (1024 * 1024 * 1024) ++ " GB\n")
      else
        .ok ("   大小: " ++ twoDecimals b.toNat (1024 * 1024) ++ " MB\n")
    | _ => .error "TypeError"
  else .ok "   大小: 0.00 MB\n"

/-- tier-gated extra lines of `format_images_summary`. -/
def image_detail_lines (detail_level : String) (img : Rec) : String :=
  if detail_level = "basic" then "" else
    (match lookupRec img "container_format" with
     | some v => "   容器格式: " ++ pyStr v ++ "\n"
     | none => "") ++
    (match lookupRec img "min_disk" with
     | some v => "   最小磁盘: " ++ pyStr v ++ " GB\n"
     | none => "") ++
    (match lookupRec img "min_ram" with
     | some v => "   最小内存: " ++ pyStr v ++ " MB\n"
     | none => "") ++
    (match lookupRec img "created_at" with
     | some v => "   创建时间: " ++ pyStr v ++ "\n"
     | none => "") ++
    (match lookupRec img "visibility" with
     | some v => "   可见性: " ++ pyStr v ++ "\n"
     | none => "") ++
    (match lookupRec img "protected" with
     | some v => "   受保护: " ++ truthyToken v ++ "\n"
     | none => "") ++
    (match lookupRec img "owner_id" with
     | some v => "   所有者ID: " ++ pyStr v ++ "\n"
     | none => "")

/-- one enumerated block of `format_images_summary`. -/
def image_entry (idx : Nat) (detail_level : String) (img : Rec) : Except String String := do
  let i ← getKey img "id"
  let n ← getKey img "name"
  let st ← getKey img "status"
  let szLine ← image_size_line img
  pure (toString idx ++ ". ID: " ++ pyStr i ++ "\n" ++
    "   名称: " ++ (if truthy n then pyStr n else "未命名") ++ "\n" ++
    "   状态: " ++ pyStr st ++ "\n" ++
    szLine ++
    "   格式: " ++ pyStr (getattrD img "disk_format" (.str "未知")) ++ "\n" ++
    image_detail_lines detail_level img ++ "\n")

/-- the enumerated blocks of `format_images_summary` from a starting index. -/
def image_entries (detail_level : String) (idx : Nat) : List Rec → Except String String
  | [] => .ok ""
  | v :: rest => do
    let s ← image_entry idx detail_level v
    let srest ← image_entries detail_level (idx + 1) rest
    pure (s ++ srest)

/-- `format_images_summary` of `os_image.py`. -/
def format_images_summary (images : List Rec) (detail_level : String) : Except String String :=
  if images.isEmpty then .ok "未找到符合条件的OpenStack镜像。"
  else do
    let body ← image_entries detail_level 1 images
    pure ("找到 " ++ toString images.length ++ " 个OpenStack镜像:\n\n" ++ body)

/-- tier-gated extra lines of `format_compute_services_summary`. -/
def compute_service_detail_lines (detail_level : String) (svc : Rec) : String :=
  if detail_level = "basic" then "" else
    (match lookupRec svc "status" with
     | some v => "   服务状态: " ++ pyStr v ++ "\n"
     | none => "") ++
    (match lookupRec svc "zone" with
     | some v => "   可用区: " ++ pyStr v ++ "\n"
     | none => "") ++
    (match lookupRec svc "updated_at" with
     | some v => "   更新时间: " ++ pyStr v ++ "\n"
     | none => "") ++
    (match lookupRec svc "disabled_reason" with
     | some v => if truthy v then "   禁用原因: " ++ pyStr v ++ "\n" else ""
     | none => "")

/-- one enumerated block of `format_compute_services_summary`. -/
def compute_service_entry (idx : Nat) (detail_level : String) (svc : Rec) : Except String String := do
  let b ← getKey svc "binary"
  let h ← getKey svc "host"
  let st ← getKey svc "state"
  pure (toString idx ++ ". 服务: " ++ pyStr b ++ "\n" ++
    "   主机: " ++ pyStr h ++ "\n" ++
    "   状态: " ++ pyStr st ++ "\n" ++
    compute_service_detail_lines detail_level svc ++ "\n")

/-- the enumerated blocks of `format_compute_services_summary`. -/
def compute_service_entries (detail_level : String) (idx : Nat) : List Rec → Except String String
  | [] => .ok ""
  | v :: rest => do
    let s ← compute_service_entry idx detail_level v
    let srest ← compute_service_entries detail_level (idx + 1) rest
    pure (s ++ srest)

/-- `format_compute_services_summary` of `os_compute_service.py`. -/
def format_compute_services_summary (services : List Rec) (detail_level : String) : Except String String :=
  if services.isEmpty then .ok "未找到符合条件的OpenStack计算服务。"
  else do
    let body ← compute_service_entries detail_level 1 services
    pure ("找到 " ++ toString services.length ++ " 个OpenStack计算服务:\n\n" ++ body)

/-- tier-gated extra lines of `format_network_agents_summary`. -/
def network_agent_detail_lines (detail_level : String) (agent : Rec) : String :=
  if detail_level = "basic" then "" else
    (match lookupRec agent "admin_state_up" with
     | some v => "   管理状态: " ++ (if truthy v then "启用" else "禁用") ++ "\n"
     | none => "") ++
    (match lookupRec agent "binary" with
     | some v => "   二进制: " ++ pyStr v ++ "\n"
     | none => "") ++
    (match lookupRec agent "heartbeat_timestamp" with
     | some v => "   心跳时间戳: " ++ pyStr v ++ "\n"
     | none => "") ++
    (match lookupRec agent "availability_zone" with
     | some v => if truthy v then "   可用区: " ++ pyStr v ++ "\n" else ""
     | none => "")

/-- one enumerated block of `format_network_agents_summary`. -/
def network_agent_entry (idx : Nat) (detail_level : String) (agent : Rec) : Except String String := do
  let i ← getKey agent "id"
  let t ← getKey agent "agent_type"
  let h ← getKey agent "host"
  let al ← getKey agent "alive"
  pure (toString idx ++ ". ID: " ++ pyStr i ++ "\n" ++
    "   类型: " ++ pyStr t ++ "\n" ++
    "   主机: " ++ pyStr h ++ "\n" ++
    "   存活状态: " ++ (if truthy al then "活跃" else "不活跃") ++ "\n" ++
    network_agent_detail_lines detail_level agent ++ "\n")

/-- the enumerated blocks of `format_network_agents_summary`. -/
def network_agent_entries (detail_level : String) (idx : Nat) : List Rec → Except String String
  | [] => .ok ""
  | v :: rest => do
    let s ← network_agent_entry idx detail_level v
    let srest ← network_agent_entries detail_level (idx + 1) rest
    pure (s ++ srest)

/-- `format_network_agents_summary` of `os_network_agent.py`. -/
def format_network_agents_summary (agents : List Rec) (detail_level : String) : Except String String :=
  if agents.isEmpty then .ok "未找到符合条件的OpenStack网络代理。"
  else do
    let body ← network_agent_entries detail_level 1 agents
    pure ("找到 " ++ toString agents.length ++ " 个OpenStack网络代理:\n\n" ++ body)

/-- the per-endpoint lines of `format_services_summary`; each endpoint must be
a dictionary carrying interface and url. -/
def endpoint_lines (epIdx : Nat) : List Val → Except String String
  | [] => .ok ""
  | .dict d :: rest => do
    let i ← getKey d "interface"
    let u ← getKey d "url"
    let r ← endpoint_lines (epIdx + 1) rest
    pure ("     端点 " ++ toString epIdx ++ ": " ++ pyStr i ++ " - " ++ pyStr u ++ "\n" ++ r)
  | _ :: _ => .error "TypeError"

/-- tier-gated extra lines of `format_services_summary` (identity services). -/
def service_detail_lines (detail_level : String) (svc : Rec) : Except String String :=
  if detail_level = "basic" then .ok "" else do
    let eps ← (match lookupRec svc "endpoints" with
      | some v =>
        if truthy v then
          match v with
          | .list es => do
            let ls ← endpoint_lines 1 es
            pure ("   端点数量: " ++ toString es.length ++ "\n" ++ ls)
          | _ => .error "TypeError"
        else pure ""
      | none => pure "")
    pure ((match lookupRec svc "description" with
      | some v => if truthy v then "   描述: " ++ pyStr v ++ "\n" else ""
      | none => "") ++
      (match lookupRec svc "enabled" with
       | some v => "   启用状态: " ++ (if truthy v then "启用" else "禁用") ++ "\n"
       | none => "") ++
      eps)

/-- one enumerated block of `format_services_summary`. -/
def service_entry (idx : Nat) (detail_level : String) (svc : Rec) : Except String String := do
  let i ← getKey svc "id"
  let n ← getKey svc "name"
  let t ← getKey svc "type"
  let details ← service_detail_lines detail_level svc
  pure (toString idx ++ ". ID: " ++ pyStr i ++ "\n" ++
    "   名称: " ++ pyStr n ++ "\n" ++
    "   类型: " ++ pyStr t ++ "\n" ++
    details ++ "\n")

/-- the enumerated blocks of `format_services_summary`. -/
def service_entries (detail_level : String) (idx : Nat) : List Rec → Except String String
  | [] => .ok ""
  | v :: rest => do
    let s ← service_entry idx detail_level v
    let srest ← service_entries detail_level (idx + 1) rest
    pure (s ++ srest)

/-- `format_services_summary` of `os_service.py` (identity services). -/
def format_services_summary (services : List Rec) (detail_level : String) : Except String String :=
  if services.isEmpty then .ok "未找到符合条件的OpenStack服务。"
  else do
    let body ← service_entries detail_level 1 services
    pure ("找到 " ++ toString services.length ++ " 个OpenStack服务:\n\n" ++ body)

/-- Modelled from the spec: the `os_volume_service.py` module imported by
`server.py` is not present under src, so its summary formatter is modelled on
the common §4.5 pattern with the volume-service noun and the binary/host/state
headline the service kinds use. -/
def format_volume_services_summary (services : List Rec) (detail_level : String) : Except String String :=
  if services.isEmpty then .ok "未找到符合条件的OpenStack卷服务。"
  else do
    let body ← compute_service_entries detail_level 1 services
    pure ("找到 " ++ toString services.length ++ " 个OpenStack卷服务:\n\n" ++ body)

/-- output of one query-processor run: the notifications sent on the session
side channel, in order, and either the formatted text or the raised failure. -/
structure ProcOutput where
  logs : List (String × String)
  result : Except String String

/-- the orchestration duplicated by every `process_*_query` function: a start
notification, then on pipeline success a success notification and formatting,
or on failure an error notification followed by a ValueError carrying the
composed message (the pipeline's own outcome is the `fetchResult` argument). -/
def runProcess (kindNoun : String) (formatter : List Rec → String → Except String String)
    (fetchResult : Except String (List Rec)) (detail_level : String) : ProcOutput :=
  let startLog := ("info", "正在获取OpenStack" ++ kindNoun ++ "信息...")
  match fetchResult with
  | .error e =>
    let msg := "获取OpenStack" ++ kindNoun ++ "信息失败: " ++ e
    ⟨[startLog, ("error", msg)], .error msg⟩
  | .ok recs =>
    let okLog := ("info", "成功获取到 " ++ toString recs.length ++ " 个OpenStack" ++ kindNoun)
    match formatter recs detail_level with
    | .ok s => ⟨[startLog, okLog], .ok s⟩
    | .error e =>
      let msg := "获取OpenStack" ++ kindNoun ++ "信息失败: " ++ e
      ⟨[startLog, okLog, ("error", msg)], .error msg⟩

/-- `process_instance_query` of `os_server.py`. -/
def process_instance_query : Except String (List Rec) → String → ProcOutput :=
  runProcess "实例" format_instances_summary

/-- `process_volume_query` of `os_volume.py`. -/
def process_volume_query : Except String (List Rec) → String → ProcOutput :=
  runProcess "卷" format_volumes_summary

/-- `process_network_query` of `os_network.py`. -/
def process_network_query : Except String (List Rec) → String → ProcOutput :=
  runProcess "网络" format_networks_summary

/-- `process_image_query` of `os_image.py`. -/
def process_image_query : Except String (List Rec) → String → ProcOutput :=
  runProcess "镜像" format_images_summary

/-- `process_compute_service_query` of `os_compute_service.py`. -/
def process_compute_service_query : Except String (List Rec) → String → ProcOutput :=
  runProcess "计算服务" format_compute_services_summary

/-- `process_network_agent_query` of `os_network_agent.py`. -/
def process_network_agent_query : Except String (List Rec) → String → ProcOutput :=
  runProcess "网络代理" format_network_agents_summary

/-- Modelled from the spec: `process_volume_service_query` lives in the absent
`os_volume_service.py`; it is modelled as the same §4.6 orchestration with the
volume-service noun and formatter. -/
def process_volume_service_query : Except String (List Rec) → String → ProcOutput :=
  runProcess "卷服务" format_volume_services_summary

/-- `process_service_query` of `os_service.py`. -/
def process_service_query : Except String (List Rec) → String → ProcOutput :=
  runProcess "服务" format_services_summary

/-- the eight resource kinds the server can query. -/
inductive ResourceKind where
  | instances
  | volumes
  | networks
  | images
  | computeServices
  | networkAgents
  | volumeServices
  | identityServices

/-- the if/elif chain of `call_tool` in `server.py`, mapping an inbound tool
name to the resource kind whose query processor handles it. -/
def call_tool_dispatch (name : String) : Option ResourceKind :=
  if name = "get_instances" then some .instances
  else if name = "get_volumes" then some .volumes
  else if name = "get_networks" then some .networks
  else if name = "get_images" then some .images
  else if name = "get_compute_services" then some .computeServices
  else if name = "get_network_agents" then some .networkAgents
  else if name = "get_volume_services" then some .volumeServices
  else if name = "get_services" then some .identityServices
  else none

/-- the query processor each dispatcher branch invokes for its kind. -/
def processorOf : ResourceKind → (Except String (List Rec) → String → ProcOutput)
  | .instances => process_instance_query
  | .volumes => process_volume_query
  | .networks => process_network_query
  | .images => process_image_query
  | .computeServices => process_compute_service_query
  | .networkAgents => process_network_agent_query
  | .volumeServices => process_volume_service_query
  | .identityServices => process_service_query

/-- the tool names advertised by `list_tools` in `server.py`, in source order. -/
def advertised_tools : List String :=
  ["get_instances", "get_volumes", "get_networks", "get_images",
   "get_compute_services", "get_network_agents", "get_volume_services", "get_services"]

/-- composition of the dispatcher with the per-kind processors: the processor
a tool invocation reaches, when its name is recognized. -/
def tool_processor (name : String) : Option (Except String (List Rec) → String → ProcOutput) :=
  (call_tool_dispatch name).map processorOf

/-- per-record projection of `get_services` (identity services) for a detail
level; basic and detailed read the id attribute and default the rest, any
other level falls through to the full non-null dump. -/
def project_service (detail_level : String) (s : Rec) : Option Rec :=
  if detail_level = "basic" then
    match lookupRec s "id" with
    | some i =>
      some [("id", i), ("name", getattrD s "name" (.str "未知")),
        ("type", getattrD s "type" (.str "未知"))]
    | none => none
  else if detail_level = "detailed" then
    match lookupRec s "id" with
    | some i =>
      some [("id", i), ("name", getattrD s "name" (.str "未知")),
        ("type", getattrD s "type" (.str "未知")),
        ("description", getattrD s "description" (.str "")),
        ("enabled", getattrD s "is_enabled" (.bool true))]
    | none => none
  else some (dropNulls s)

/-- projection of one endpoint record into the nested
id, interface, region, url dictionary `get_services` attaches. -/
def project_endpoint (e : Rec) : Option Rec :=
  match lookupRec e "id" with
  | some i =>
    some [("id", i), ("interface", getattrD e "interface" (.str "")),
      ("region", getattrD e "region" (.str "")), ("url", getattrD e "url" (.str ""))]
  | none => none

/-- projection of a fetched endpoint list. -/
def project_endpoints (es : List Rec) : Option (List Rec) :=
  mapOpt project_endpoint es

/-- one loop iteration of `get_services`: project the service, then for any
tier other than basic issue the secondary endpoint fetch keyed by the
service's id, attach the projected endpoints, and log the id fetched for. -/
def service_step (endpointsOf : Val → List Rec) (detail_level : String) (s : Rec) :
    Option (Rec × List Val) :=
  match project_service detail_level s with
  | none => none
  | some info =>
    if detail_level = "basic" then some (info, [])
    else
      match lookupRec s "id" with
      | none => none
      | some sid =>
        match project_endpoints (endpointsOf sid) with
        | none => none
        | some peps => some (setKey info "endpoints" (.list (peps.map .dict)), [sid])

/-- the result loop of `get_services` over the filtered, truncated services,
accumulating projected records and the secondary-fetch log. -/
def service_steps (endpointsOf : Val → List Rec) (detail_level : String) :
    List Rec → Option (List Rec × List Val)
  | [] => some ([], [])
  | s :: rest =>
    match service_step endpointsOf detail_level s with
    | none => none
    | some (info, cs) =>
      match service_steps endpointsOf detail_level rest with
      | none => none
      | some (infos, css) => some (info :: infos, cs ++ css)

/-- `get_services` of `os_service.py`, modelled over a fetched service list
and an endpoint fetcher; returns the projected records together with the list
of service ids a secondary endpoint fetch was issued for. -/
def get_services (endpointsOf : Val → List Rec) (filter_value : String) (limit : Nat)
    (detail_level : String) (fetched : List Rec) : Option (List Rec × List Val) :=
  match filter_identity_services filter_value fetched with
  | none => none
  | some ss => service_steps endpointsOf detail_level (ss.take limit)

/-- one name-like clause as the spec words the filter contract: the field
exists on the record and contains the filter case-insensitively. -/
def spec_name_clause (r : Rec) (k : String) (filter_value : String) : Bool :=
  match lookupRec r k with
  | some (.str s) => containsCI s filter_value
  | _ => false

/-- the id clause as the spec words it: the identifier contains the filter
case-sensitively. -/
def spec_id_clause (r : Rec) (filter_value : String) : Bool :=
  match lookupRec r "id" with
  | some (.str s) => containsCS s filter_value
  | _ => false

/-- the filter contract as the spec words it: some declared name-like field
matches case-insensitively, or the id matches case-sensitively. -/
def spec_matches (nameFields : List String) (filter_value : String) (r : Rec) : Bool :=
  nameFields.any (fun k => spec_name_clause r k filter_value) ||
    spec_id_clause r filter_value

/-- per-record projection of `get_instances` for a detail level: the basic and
detailed tiers read id, name and status as attributes (raising when one is
missing), the detailed tier reads the flavor and image ids through
`getattr(server, k, dict()).get("id", "未知")` — raising when a present value
is not a dictionary — and every other detail level falls through to the full
tier's non-null field dump. -/
def project_instance (detail_level : String) (r : Rec) : Option Rec :=
  if detail_level = "basic" then
    match lookupRec r "id", lookupRec r "name", lookupRec r "status" with
    | some i, some n, some st => some [("id", i), ("name", n), ("status", st)]
    | _, _, _ => none
  else if detail_level = "detailed" then
    match lookupRec r "id", lookupRec r "name", lookupRec r "status" with
    | some i, some n, some st =>
      match getattrD r "flavor" (.dict []), getattrD r "image" (.dict []) with
      | .dict fd, .dict imd =>
        some [("id", i), ("name", n), ("status", st),
          ("flavor", getattrD fd "id" (.str "未知")),
          ("image", getattrD imd "id" (.str "未知")),
          ("addresses", getattrD r "addresses" (.dict [])),
          ("created_at", getattrD r "created_at" (.str "未知"))]
      | _, _ => none
    | _, _, _ => none
  else
    some (dropNulls r)

/-- the full-tier branch of `get_networks`: copy the record, alias
router:external to is_external when present, then drop the null fields. -/
def network_full_info (r : Rec) : Rec :=
  dropNulls (match lookupRec r "router:external" with
    | some v => setKey r "is_external" v
    | none => r)

/-- per-record projection of `get_networks` for a detail level: every field is
read from `network.to_dict()` with a defaulted `.get`, so no tier raises; any
detail level other than basic and detailed falls through to the full branch
with its is_external normalization. -/
def project_network (detail_level : String) (r : Rec) : Rec :=
  if detail_level = "basic" then
    [("id", getattrD r "id" (.str "未知")), ("name", getattrD r "name" (.str "未知")),
     ("status", getattrD r "status" (.str "未知")),
     ("is_shared", getattrD r "shared" (.bool false)),
     ("is_external", getattrD r "router:external" (.bool false))]
  else if detail_level = "detailed" then
    [("id", getattrD r "id" (.str "未知")), ("name", getattrD r "name" (.str "未知")),
     ("status", getattrD r "status" (.str "未知")),
     ("is_shared", getattrD r "shared" (.bool false)),
     ("is_external", getattrD r "router:external" (.bool false)),
     ("mtu", getOrNone r "mtu"),
     ("subnets", getattrD r "subnets" (.list [])),
     ("availability_zones", getattrD r "availability_zones" (.list [])),
     ("created_at", getattrD r "created_at" (.str "未知")),
     ("project_id", getattrD r "project_id" (.str "未知"))]
  else network_full_info r

/-- per-record projection of `get_images` for a detail level: the basic and
detailed tiers read id, name and status as attributes (raising when one is
missing) and default the rest; every other detail level falls through to the
full tier's non-null field dump. -/
def project_image (detail_level : String) (r : Rec) : Option Rec :=
  if detail_level = "basic" then
    match lookupRec r "id", lookupRec r "name", lookupRec r "status" with
    | some i, some n, some st =>
      some [("id", i), ("name", n), ("status", st),
        ("size", getattrD r "size" (.int 0)),
        ("disk_format", getattrD r "disk_format" (.str "未知"))]
    | _, _, _ => none
  else if detail_level = "detailed" then
    match lookupRec r "id", lookupRec r "name", lookupRec r "status" with
    | some i, some n, some st =>
      some [("id", i), ("name", n), ("status", st),
        ("size", getattrD r "size" (.int 0)),
        ("disk_format", getattrD r "disk_format" (.str "未知")),
        ("container_format", getattrD r "container_format" (.str "未知")),
        ("min_disk", getattrD r "min_disk" (.int 0)),
        ("min_ram", getattrD r "min_ram" (.int 0)),
        ("created_at", getattrD r "created_at" (.str "未知")),
        ("updated_at", getattrD r "updated_at" (.str "未知")),
        ("visibility", getattrD r "visibility" (.str "未知")),
        ("protected", getattrD r "protected" (.bool false)),
        ("owner_id", getattrD r "owner_id" (.str "未知"))]
    | _, _, _ => none
  else some (dropNulls r)

/-- per-record projection of `get_compute_services` for a detail level: every
field is read with a defaulted getattr, so no tier raises; any detail level
other than basic and detailed falls through to the full tier's non-null dump. -/
def project_compute_service (detail_level : String) (r : Rec) : Rec :=
  if detail_level = "basic" then
    [("id", getattrD r "id" (.str "未知")), ("binary", getattrD r "binary" (.str "未知")),
     ("host", getattrD r "host" (.str "未知")), ("state", getattrD r "state" (.str "未知"))]
  else if detail_level = "detailed" then
    [("id", getattrD r "id" (.str "未知")), ("binary", getattrD r "binary" (.str "未知")),
     ("host", getattrD r "host" (.str "未知")), ("state", getattrD r "state" (.str "未知")),
     ("status", getattrD r "status" (.str "未知")), ("zone", getattrD r "zone" (.str "未知")),
     ("updated_at", getattrD r "updated_at" (.str "未知")),
     ("disabled_reason", getOrNone r "disabled_reason")]
  else dropNulls r

/-- per-record projection of `get_network_agents` for a detail level: the
basic and detailed tiers read the id attribute (raising when missing) and
default the rest; every other detail level falls through to the full tier's
non-null field dump. -/
def project_network_agent (detail_level : String) (r : Rec) : Option Rec :=
  if detail_level = "basic" then
    match lookupRec r "id" with
    | some i =>
      some [("id", i), ("agent_type", getattrD r "agent_type" (.str "未知")),
        ("host", getattrD r "host" (.str "未知")),
        ("alive", getattrD r "is_alive" (.bool false))]
    | none => none
  else if detail_level = "detailed" then
    match lookupRec r "id" with
    | some i =>
      some [("id", i), ("agent_type", getattrD r "agent_type" (.str "未知")),
        ("host", getattrD r "host" (.str "未知")),
        ("alive", getattrD r "is_alive" (.bool false)),
        ("admin_state_up", getattrD r "is_admin_state_up" (.bool false)),
        ("binary", getattrD r "binary" (.str "未知")),
        ("created_at", getattrD r "created_at" (.str "未知")),
        ("heartbeat_timestamp", getattrD r "heartbeat_timestamp" (.str "未知")),
        ("availability_zone", getattrD r "availability_zone" (.str "未知"))]
    | none => none
  else some (dropNulls r)

theorem isPrefixOf_self (l : List Char) : l.isPrefixOf l = true := by
  induction l with
  | nil => rfl
  | cons c t ih => simp [List.isPrefixOf, ih]

theorem hasSubstr_append (p e : List Char) : hasSubstr e (p ++ e) = true := by
  induction p with
  | nil =>
    cases e with
    | nil => rfl
    | cons c t => simp [hasSubstr, isPrefixOf_self]
  | cons c t ih => simp [hasSubstr, ih]

theorem containsCS_append (a b : String) : containsCS (a ++ b) b = true := by
  unfold containsCS
  rw [String.data_append]
  exact hasSubstr_append a.data b.data

theorem prefixed_ne (p e : String) (hp : p.data ≠ []) : p ++ e ≠ e := by
  intro h
  have hd := congrArg String.data h
  rw [String.data_append] at hd
  have hlen := congrArg List.length hd
  rw [List.length_append] at hlen
  exact hp (List.eq_nil_of_length_eq_zero (by omega))

theorem pyFilter_sublist (p : α → Option Bool) (l out : List α)
    (h : pyFilter p l = some out) : out.Sublist l := by
  induction l generalizing out with
  | nil =>
    simp only [pyFilter, Option.some.injEq] at h
    simp [← h]
  | cons a as ih =>
    simp only [pyFilter] at h
    cases hp : p a with
    | none => rw [hp] at h; exact absurd h (by simp)
    | some b =>
      rw [hp] at h
      cases hrest : pyFilter p as with
      | none => rw [hrest] at h; exact absurd h (by simp)
      | some rest =>
        rw [hrest] at h
        simp only [Option.some.injEq] at h
        cases b with
        | false =>
          simp at h
          exact h ▸ List.Sublist.cons a (ih rest hrest)
        | true =>
          simp at h
          exact h ▸ List.Sublist.cons₂ a (ih rest hrest)

theorem pyFilter_all (p : α → Option Bool) (l out : List α)
    (h : pyFilter p l = some out) : ∀ x ∈ out, p x = some true := by
  induction l generalizing out with
  | nil =>
    simp only [pyFilter, Option.some.injEq] at h
    simp [← h]
  | cons a as ih =>
    simp only [pyFilter] at h
    cases hp : p a with
    | none => rw [hp] at h; exact absurd h (by simp)
    | some b =>
      rw [hp] at h
      cases hrest : pyFilter p as with
      | none => rw [hrest] at h; exact absurd h (by simp)
      | some rest =>
        rw [hrest] at h
        simp only [Option.some.injEq] at h
        cases b with
        | false =>
          simp at h
          exact h ▸ ih rest hrest
        | true =>
          simp at h
          intro x hx
          rw [← h] at hx
          rcases List.mem_cons.mp hx with hxa | hxr
          · rw [hxa]; exact hp
          · exact ih rest hrest x hxr

theorem pyFilter_of_all (p : α → Option Bool) (l : List α)
    (h : ∀ x ∈ l, p x = some true) : pyFilter p l = some l := by
  induction l with
  | nil => rfl
  | cons a as ih =>
    have ha := h a (by simp)
    have has := ih (fun x hx => h x (by simp [hx]))
    simp [pyFilter, ha, has]

theorem mapOpt_length (f : α → Option β) (l : List α) (out : List β)
    (h : mapOpt f l = some out) : out.length = l.length := by
  induction l generalizing out with
  | nil =>
    simp only [mapOpt, Option.some.injEq] at h
    simp [← h]
  | cons a as ih =>
    simp only [mapOpt] at h
    cases hf : f a with
    | none => rw [hf] at h; exact absurd h (by simp)
    | some b =>
      rw [hf] at h
      cases hrest : mapOpt f as with
      | none => rw [hrest] at h; exact absurd h (by simp)
      | some bs =>
        rw [hrest] at h
        simp only [Option.some.injEq] at h
        rw [← h]
        simp [ih bs hrest]

theorem take_eq_take_min (l : List α) (n : Nat) : l.take n = l.take (min n l.length) := by
  rcases Nat.le_total n l.length with h | h
  · rw [Nat.min_eq_left h]
  · rw [Nat.min_eq_right h, List.take_of_length_le h, List.take_length]

theorem lookupRec_setKey (r : Rec) (k : String) (v : Val) :
    lookupRec (setKey r k v) k = some v := by
  induction r with
  | nil => simp [setKey, lookupRec]
  | cons p rest ih =>
    obtain ⟨k0, v0⟩ := p
    by_cases hk : k0 = k
    · simp [setKey, hk, lookupRec]
    · simp [setKey, hk, lookupRec, ih]

theorem containsCI_empty_left (f : String) (hf : f ≠ "") : containsCI "" f = false := by
  obtain ⟨l⟩ := f
  cases l with
  | nil => exact absurd rfl hf
  | cons c t => rfl

theorem pyFilter_none_of_mem (p : α → Option Bool) (l : List α) (x : α)
    (hx : x ∈ l) (hpx : p x = none) : pyFilter p l = none := by
  induction l with
  | nil => cases hx
  | cons a as ih =>
    rcases List.mem_cons.mp hx with rfl | hmem
    · simp [pyFilter, hpx]
    · cases hpa : p a <;> simp [pyFilter, hpa, ih hmem]

theorem filter_stage_idem (p : Rec → Option Bool) (filter_value : String) (S out : List Rec)
    (h : (if filter_value = "" then some S else pyFilter p S) = some out) :
    (if filter_value = "" then some out else pyFilter p out) = some out ∧ out.Sublist S := by
  by_cases hf : filter_value = ""
  · rw [if_pos hf] at h ⊢
    injection h with h
    cases h
    exact ⟨rfl, List.Sublist.refl S⟩
  · rw [if_neg hf] at h ⊢
    exact ⟨pyFilter_of_all p out (pyFilter_all p S out h), pyFilter_sublist p S out h⟩

/-- a field is either absent or carries a string, the shapes on which a
hasattr-guarded clause cannot raise. -/
def strOrAbsent (r : Rec) (k : String) : Prop :=
  lookupRec r k = none ∨ ∃ s, lookupRec r k = some (Val.str s)

theorem hasattrCI_spec (r : Rec) (k : String) (filter_value : String)
    (h : strOrAbsent r k) : hasattrCI r k filter_value = some (spec_name_clause r k filter_value) := by
  rcases h with h | ⟨s, h⟩ <;> simp [hasattrCI, spec_name_clause, h]

theorem hasattrCS_spec (r : Rec) (filter_value : String)
    (h : strOrAbsent r "id") : hasattrCS r "id" filter_value = some (spec_id_clause r filter_value) := by
  rcases h with h | ⟨s, h⟩ <;> simp [hasattrCS, spec_id_clause, h]

theorem orO_some (a b : Bool) : orO (some a) (some b) = some (a || b) := by
  cases a <;> rfl

theorem service_step_spec (endpointsOf : Val → List Rec) (detail_level : String)
    (s info : Rec) (cs : List Val) (hd : detail_level ≠ "basic")
    (h : service_step endpointsOf detail_level s = some (info, cs)) :
    ∃ sid peps, lookupRec s "id" = some sid ∧ cs = [sid] ∧
      project_endpoints (endpointsOf sid) = some peps ∧
      lookupRec info "endpoints" = some (.list (peps.map .dict)) := by
  unfold service_step at h
  split at h
  · exact absurd h (by simp)
  next info0 hp =>
    rw [if_neg hd] at h
    split at h
    · exact absurd h (by simp)
    next sid hid =>
      split at h
      · exact absurd h (by simp)
      next peps hpe =>
        simp only [Option.some.injEq, Prod.mk.injEq] at h
        obtain ⟨hinfo, hcs⟩ := h
        refine ⟨sid, peps, hid, hcs.symm, hpe, ?_⟩
        rw [← hinfo]
        exact lookupRec_setKey info0 "endpoints" _

theorem service_step_basic_calls (endpointsOf : Val → List Rec) (s info : Rec) (cs : List Val)
    (h : service_step endpointsOf "basic" s = some (info, cs)) : cs = [] := by
  unfold service_step at h
  split at h
  · exact absurd h (by simp)
  next info0 hp =>
    rw [if_pos rfl] at h
    simp only [Option.some.injEq, Prod.mk.injEq] at h
    exact h.2.symm

theorem service_steps_calls (endpointsOf : Val → List Rec) (detail_level : String)
    (hd : detail_level ≠ "basic") (kept out : List Rec) (calls : List Val)
    (h : service_steps endpointsOf detail_level kept = some (out, calls)) :
    mapOpt (fun r => lookupRec r "id") kept = some calls := by
  induction kept generalizing out calls with
  | nil =>
    simp only [service_steps, Option.some.injEq, Prod.mk.injEq] at h
    simp [mapOpt, ← h.2]
  | cons s rest ih =>
    simp only [service_steps] at h
    cases hs : service_step endpointsOf detail_level s with
    | none => rw [hs] at h; exact absurd h (by simp)
    | some pr =>
      obtain ⟨info, cs⟩ := pr
      rw [hs] at h
      cases hr : service_steps endpointsOf detail_level rest with
      | none => rw [hr] at h; exact absurd h (by simp)
      | some pr2 =>
        obtain ⟨infos, css⟩ := pr2
        rw [hr] at h
        simp only [Option.some.injEq, Prod.mk.injEq] at h
        obtain ⟨-, hcalls⟩ := h
        obtain ⟨sid, peps, hid, hcs, -, -⟩ := service_step_spec endpointsOf detail_level s info cs hd hs
        rw [← hcalls, hcs]
        simp [mapOpt, hid, ih infos css hr]

theorem service_steps_basic_calls (endpointsOf : Val → List Rec)
    (kept out : List Rec) (calls : List Val)
    (h : service_steps endpointsOf "basic" kept = some (out, calls)) : calls = [] := by
  induction kept generalizing out calls with
  | nil =>
    simp only [service_steps, Option.some.injEq, Prod.mk.injEq] at h
    exact h.2.symm
  | cons s rest ih =>
    simp only [service_steps] at h
    cases hs : service_step endpointsOf "basic" s with
    | none => rw [hs] at h; exact absurd h (by simp)
    | some pr =>
      obtain ⟨info, cs⟩ := pr
      rw [hs] at h
      cases hr : service_steps endpointsOf "basic" rest with
      | none => rw [hr] at h; exact absurd h (by simp)
      | some pr2 =>
        obtain ⟨infos, css⟩ := pr2
        rw [hr] at h
        simp only [Option.some.injEq, Prod.mk.injEq] at h
        rw [← h.2, service_step_basic_calls endpointsOf s info cs hs, ih infos css hr]
        rfl

theorem volume_detail_lines_nonbasic (detail_level : String) (v : Rec)
    (h : detail_level ≠ "basic") :
    volume_detail_lines detail_level v = volume_detail_lines "full" v := by
  unfold volume_detail_lines
  rw [if_neg h, if_neg (by decide)]

theorem volume_entry_nonbasic (idx : Nat) (detail_level : String) (v : Rec)
    (h : detail_level ≠ "basic") :
    volume_entry idx detail_level v = volume_entry idx "full" v := by
  simp only [volume_entry, volume_detail_lines_nonbasic detail_level v h]

theorem volume_entries_nonbasic (detail_level : String) (h : detail_level ≠ "basic")
    (idx : Nat) (vs : List Rec) :
    volume_entries detail_level idx vs = volume_entries "full" idx vs := by
  induction vs generalizing idx with
  | nil => rfl
  | cons v rest ih =>
    simp only [volume_entries, volume_entry_nonbasic idx detail_level v h, ih (idx + 1)]

theorem format_volumes_summary_nonbasic (detail_level : String) (h : detail_level ≠ "basic")
    (vs : List Rec) :
    format_volumes_summary vs detail_level = format_volumes_summary vs "full" := by
  cases vs with
  | nil => rfl
  | cons v rest =>
    unfold format_volumes_summary
    rw [volume_entries_nonbasic detail_level h]

theorem instance_detail_lines_nonbasic (detail_level : String) (v : Rec)
    (h : detail_level ≠ "basic") :
    instance_detail_lines detail_level v = instance_detail_lines "full" v := by
  unfold instance_detail_lines
  rw [if_neg h, if_neg (by decide)]

theorem instance_entry_nonbasic (idx : Nat) (detail_level : String) (v : Rec)
    (h : detail_level ≠ "basic") :
    instance_entry idx detail_level v = instance_entry idx "full" v := by
  simp only [instance_entry, instance_detail_lines_nonbasic detail_level v h]

theorem instance_entries_nonbasic (detail_level : String) (h : detail_level ≠ "basic")
    (idx : Nat) (vs : List Rec) :
    instance_entries detail_level idx vs = instance_entries "full" idx vs := by
  induction vs generalizing idx with
  | nil => rfl
  | cons v rest ih =>
    simp only [instance_entries, instance_entry_nonbasic idx detail_level v h, ih (idx + 1)]

theorem format_instances_summary_nonbasic (detail_level : String) (h : detail_level ≠ "basic")
    (vs : List Rec) :
    format_instances_summary vs detail_level = format_instances_summary vs "full" := by
  cases vs with
  | nil => rfl
  | cons v rest =>
    unfold format_instances_summary
    rw [instance_entries_nonbasic detail_level h]

theorem network_detail_lines_nonbasic (detail_level : String) (v : Rec)
    (h : detail_level ≠ "basic") :
    network_detail_lines detail_level v = network_detail_lines "full" v := by
  unfold network_detail_lines
  rw [if_neg h, if_neg (by decide)]

theorem network_entry_nonbasic (idx : Nat) (detail_level : String) (v : Rec)
    (h : detail_level ≠ "basic") :
    network_entry idx detail_level v = network_entry idx "full" v := by
  simp only [network_entry, network_detail_lines_nonbasic detail_level v h]

theorem network_entries_nonbasic (detail_level : String) (h : detail_level ≠ "basic")
    (idx : Nat) (vs : List Rec) :
    network_entries detail_level idx vs = network_entries "full" idx vs := by
  induction vs generalizing idx with
  | nil => rfl
  | cons v rest ih =>
    simp only [network_entries, network_entry_nonbasic idx detail_level v h, ih (idx + 1)]

theorem format_networks_summary_nonbasic (detail_level : String) (h : detail_level ≠ "basic")
    (vs : List Rec) :
    format_networks_summary vs detail_level = format_networks_summary vs "full" := by
  cases vs with
  | nil => rfl
  | cons v rest =>
    unfold format_networks_summary
    rw [network_entries_nonbasic detail_level h]

theorem image_detail_lines_nonbasic (detail_level : String) (v : Rec)
    (h : detail_level ≠ "basic") :
    image_detail_lines detail_level v = image_detail_lines "full" v := by
  unfold image_detail_lines
  rw [if_neg h, if_neg (by decide)]

theorem image_entry_nonbasic (idx : Nat) (detail_level : String) (v : Rec)
    (h : detail_level ≠ "basic") :
    image_entry idx detail_level v = image_entry idx "full" v := by
  simp only [image_entry, image_detail_lines_nonbasic detail_level v h]

theorem image_entries_nonbasic (detail_level : String) (h : detail_level ≠ "basic")
    (idx : Nat) (vs : List Rec) :
    image_entries detail_level idx vs = image_entries "full" idx vs := by
  induction vs generalizing idx with
  | nil => rfl
  | cons v rest ih =>
    simp only [image_entries, image_entry_nonbasic idx detail_level v h, ih (idx + 1)]

theorem format_images_summary_nonbasic (detail_level : String) (h : detail_level ≠ "basic")
    (vs : List Rec) :
    format_images_summary vs detail_level = format_images_summary vs "full" := by
  cases vs with
  | nil => rfl
  | cons v rest =>
    unfold format_images_summary
    rw [image_entries_nonbasic detail_level h]

theorem compute_service_detail_lines_nonbasic (detail_level : String) (v : Rec)
    (h : detail_level ≠ "basic") :
    compute_service_detail_lines detail_level v = compute_service_detail_lines "full" v := by
  unfold compute_service_detail_lines
  rw [if_neg h, if_neg (by decide)]

theorem compute_service_entry_nonbasic (idx : Nat) (detail_level : String) (v : Rec)
    (h : detail_level ≠ "basic") :
    compute_service_entry idx detail_level v = compute_service_entry idx "full" v := by
  simp only [compute_service_entry, compute_service_detail_lines_nonbasic detail_level v h]

theorem compute_service_entries_nonbasic (detail_level : String) (h : detail_level ≠ "basic")
    (idx : Nat) (vs : List Rec) :
    compute_service_entries detail_level idx vs = compute_service_entries "full" idx vs := by
  induction vs generalizing idx with
  | nil => rfl
  | cons v rest ih =>
    simp only [compute_service_entries, compute_service_entry_nonbasic idx detail_level v h,
      ih (idx + 1)]

theorem format_compute_services_summary_nonbasic (detail_level : String)
    (h : detail_level ≠ "basic") (vs : List Rec) :
    format_compute_services_summary vs detail_level =
      format_compute_services_summary vs "full" := by
  cases vs with
  | nil => rfl
  | cons v rest =>
    unfold format_compute_services_summary
    rw [compute_service_entries_nonbasic detail_level h]

theorem format_volume_services_summary_nonbasic (detail_level : String)
    (h : detail_level ≠ "basic") (vs : List Rec) :
    format_volume_services_summary vs detail_level =
      format_volume_services_summary vs "full" := by
  cases vs with
  | nil => rfl
  | cons v rest =>
    unfold format_volume_services_summary
    rw [compute_service_entries_nonbasic detail_level h]

theorem network_agent_detail_lines_nonbasic (detail_level : String) (v : Rec)
    (h : detail_level ≠ "basic") :
    network_agent_detail_lines detail_level v = network_agent_detail_lines "full" v := by
  unfold network_agent_detail_lines
  rw [if_neg h, if_neg (by decide)]

theorem network_agent_entry_nonbasic (idx : Nat) (detail_level : String) (v : Rec)
    (h : detail_level ≠ "basic") :
    network_agent_entry idx detail_level v = network_agent_entry idx "full" v := by
  simp only [network_agent_entry, network_agent_detail_lines_nonbasic detail_level v h]

theorem network_agent_entries_nonbasic (detail_level : String) (h : detail_level ≠ "basic")
    (idx : Nat) (vs : List Rec) :
    network_agent_entries detail_level idx vs = network_agent_entries "full" idx vs := by
  induction vs generalizing idx with
  | nil => rfl
  | cons v rest ih =>
    simp only [network_agent_entries, network_agent_entry_nonbasic idx detail_level v h,
      ih (idx + 1)]

theorem format_network_agents_summary_nonbasic (detail_level : String)
    (h : detail_level ≠ "basic") (vs : List Rec) :
    format_network_agents_summary vs detail_level =
      format_network_agents_summary vs "full" := by
  cases vs with
  | nil => rfl
  | cons v rest =>
    unfold format_network_agents_summary
    rw [network_agent_entries_nonbasic detail_level h]

theorem service_detail_lines_nonbasic (detail_level : String) (v : Rec)
    (h : detail_level ≠ "basic") :
    service_detail_lines detail_level v = service_detail_lines "full" v := by
  unfold service_detail_lines
  rw [if_neg h, if_neg (by decide)]

theorem service_entry_nonbasic (idx : Nat) (detail_level : String) (v : Rec)
    (h : detail_level ≠ "basic") :
    service_entry idx detail_level v = service_entry idx "full" v := by
  simp only [service_entry, service_detail_lines_nonbasic detail_level v h]

theorem service_entries_nonbasic (detail_level : String) (h : detail_level ≠ "basic")
    (idx : Nat) (vs : List Rec) :
    service_entries detail_level idx vs = service_entries "full" idx vs := by
  induction vs generalizing idx with
  | nil => rfl
  | cons v rest ih =>
    simp only [service_entries, service_entry_nonbasic idx detail_level v h, ih (idx + 1)]

theorem format_services_summary_nonbasic (detail_level : String) (h : detail_level ≠ "basic")
    (vs : List Rec) :
    format_services_summary vs detail_level = format_services_summary vs "full" := by
  cases vs with
  | nil => rfl
  | cons v rest =>
    unfold format_services_summary
    rw [service_entries_nonbasic detail_level h]

/-- C4: with a fetcher returning the three volume records alpha (id v1, status
available, size 10), beta (id v2, status in-use, size 20) and gamma-alpha
(id v3, status error, size 5), the volume query with filter "alpha", limit 10
and the basic tier yields exactly alpha and gamma-alpha in that order, and the
formatted text enumerates them as items 1. and 2. with their id, name, status
and size lines and no tier-gated extra lines. -/
theorem claim_C4_round_trip :
    get_volumes "alpha" 10 "basic"
      [[("id", Val.str "v1"), ("name", Val.str "alpha"), ("status", Val.str "available"), ("size", Val.int 10)],
       [("id", Val.str "v2"), ("name", Val.str "beta"), ("status", Val.str "in-use"), ("size", Val.int 20)],
       [("id", Val.str "v3"), ("name", Val.str "gamma-alpha"), ("status", Val.str "error"), ("size", Val.int 5)]] =
      some [[("id", Val.str "v1"), ("name", Val.str "alpha"), ("status", Val.str "available"), ("size", Val.int 10)],
            [("id", Val.str "v3"), ("name", Val.str "gamma-alpha"), ("status", Val.str "error"), ("size", Val.int 5)]] ∧
    format_volumes_summary
      [[("id", Val.str "v1"), ("name", Val.str "alpha"), ("status", Val.str "available"), ("size", Val.int 10)],
       [("id", Val.str "v3"), ("name", Val.str "gamma-alpha"), ("status", Val.str "error"), ("size", Val.int 5)]]
      "basic" =
      Except.ok "找到 2 个OpenStack卷:\n\n1. ID: v1\n   名称: alpha\n   状态: available\n   大小: 10 GB\n\n2. ID: v3\n   名称: gamma-alpha\n   状态: error\n   大小: 5 GB\n\n" :=
  ⟨rfl, rfl⟩

/-- C5: for every failure raised by the fetch step, the volume query processor
sends the start notification and then an error notification carrying the
stringified cause, and raises a ValueError (not the raw exception) whose
composed message contains the original cause as a substring; no formatted text
is returned. -/
theorem claim_C5_error_path (err detail_level : String) :
    process_volume_query (Except.error err) detail_level =
      ⟨[("info", "正在获取OpenStack卷信息..."),
        ("error", "获取OpenStack卷信息失败: " ++ err)],
       Except.error ("获取OpenStack卷信息失败: " ++ err)⟩ ∧
    containsCS ("获取OpenStack卷信息失败: " ++ err) err = true ∧
    "获取OpenStack卷信息失败: " ++ err ≠ err :=
  ⟨rfl, containsCS_append "获取OpenStack卷信息失败: " err,
   prefixed_ne "获取OpenStack卷信息失败: " err (by decide)⟩

/-- C3: when the volume pipeline succeeds on a fetched sequence, a filter and a
positive limit, its result holds at most min(limit, filtered-length) records —
never more than limit — and equals the projection of exactly the first
min(limit, filtered-length) filtered records in fetch order. -/
theorem claim_C3_limit_truncation (filter_value detail_level : String) (limit : Nat)
    (fetched filtered out : List Rec) (hpos : 0 < limit)
    (hfil : filter_volumes filter_value fetched = some filtered)
    (hrun : get_volumes filter_value limit detail_level fetched = some out) :
    out.length ≤ min limit filtered.length ∧
    mapOpt (project_volume detail_level) (filtered.take (min limit filtered.length)) = some out := by
  unfold get_volumes at hrun
  rw [hfil] at hrun
  replace hrun : mapOpt (project_volume detail_level) (filtered.take limit) = some out := hrun
  rw [take_eq_take_min] at hrun
  have hlen := mapOpt_length _ _ _ hrun
  rw [List.length_take] at hlen
  have hout : out.length = min limit filtered.length := by
    rw [hlen, Nat.min_assoc, Nat.min_self]
  exact ⟨hout ▸ Nat.le_refl _, hrun⟩

/-- witness for C3 at a concrete one-record fetch with limit 1. -/
theorem claim_C3_limit_truncation_witness :
    0 < 1 ∧
    (([[("id", Val.str "v1"), ("name", Val.str "a"), ("status", Val.str "ok"), ("size", Val.int 1)]] : List Rec).length ≤
      min 1 ([[("id", Val.str "v1"), ("name", Val.str "a"), ("status", Val.str "ok"), ("size", Val.int 1)]] : List Rec).length ∧
    mapOpt (project_volume "basic")
      (([[("id", Val.str "v1"), ("name", Val.str "a"), ("status", Val.str "ok"), ("size", Val.int 1)]] : List Rec).take
        (min 1 ([[("id", Val.str "v1"), ("name", Val.str "a"), ("status", Val.str "ok"), ("size", Val.int 1)]] : List Rec).length)) =
      some [[("id", Val.str "v1"), ("name", Val.str "a"), ("status", Val.str "ok"), ("size", Val.int 1)]]) :=
  ⟨Nat.one_pos,
   claim_C3_limit_truncation "" "basic" 1
     [[("id", Val.str "v1"), ("name", Val.str "a"), ("status", Val.str "ok"), ("size", Val.int 1)]]
     [[("id", Val.str "v1"), ("name", Val.str "a"), ("status", Val.str "ok"), ("size", Val.int 1)]]
     [[("id", Val.str "v1"), ("name", Val.str "a"), ("status", Val.str "ok"), ("size", Val.int 1)]]
     Nat.one_pos rfl rfl⟩

/-- C8: for every record sequence and filter string, the volume and
compute-service filter stages are idempotent — refiltering a successful result
reproduces it — and the result is a subsequence of the input preserving the
original relative order. -/
theorem claim_C8_filter_idempotent (filter_value : String) (S out : List Rec) :
    (filter_volumes filter_value S = some out →
      filter_volumes filter_value out = some out ∧ out.Sublist S) ∧
    (filter_compute_services filter_value S = some out →
      filter_compute_services filter_value out = some out ∧ out.Sublist S) :=
  ⟨fun h => filter_stage_idem (name_id_match filter_value) filter_value S out h,
   fun h => filter_stage_idem (compute_service_match filter_value) filter_value S out h⟩

/-- witness for C8 on concrete volume and compute-service records. -/
theorem claim_C8_filter_idempotent_witness :
    (filter_volumes "a" [[("id", Val.str "v1"), ("name", Val.str "alpha")]] =
       some [[("id", Val.str "v1"), ("name", Val.str "alpha")]] ∧
     ([[("id", Val.str "v1"), ("name", Val.str "alpha")]] : List Rec).Sublist
       [[("id", Val.str "v1"), ("name", Val.str "alpha")]]) ∧
    (filter_compute_services "nova" [[("id", Val.str "c1"), ("binary", Val.str "nova-compute"), ("host", Val.str "h1")]] =
       some [[("id", Val.str "c1"), ("binary", Val.str "nova-compute"), ("host", Val.str "h1")]] ∧
     ([[("id", Val.str "c1"), ("binary", Val.str "nova-compute"), ("host", Val.str "h1")]] : List Rec).Sublist
       [[("id", Val.str "c1"), ("binary", Val.str "nova-compute"), ("host", Val.str "h1")]]) :=
  ⟨(claim_C8_filter_idempotent "a"
      [[("id", Val.str "v1"), ("name", Val.str "alpha")]]
      [[("id", Val.str "v1"), ("name", Val.str "alpha")]]).1 rfl,
   (claim_C8_filter_idempotent "nova"
      [[("id", Val.str "c1"), ("binary", Val.str "nova-compute"), ("host", Val.str "h1")]]
      [[("id", Val.str "c1"), ("binary", Val.str "nova-compute"), ("host", Val.str "h1")]]).2 rfl⟩

/-- C9: for every resource kind, any detail_level string other than exactly
"basic" or "detailed" (such as a misspelling or the empty string) silently
takes the full-tier branch: each of the seven embedded projections equals its
own full tier — the non-null raw field dump, with the network kind's
is_external normalization — and each of the eight formatters appends its
tier-gated extra lines because every gate only tests detail_level against
"basic"; no layer rejects the out-of-enum value. -/
theorem claim_C9_unknown_tier_is_full (detail_level : String) (r : Rec) (vs : List Rec)
    (h1 : detail_level ≠ "basic") (h2 : detail_level ≠ "detailed") :
    (project_volume detail_level r = some (dropNulls r) ∧
     project_volume detail_level r = project_volume "full" r) ∧
    (project_instance detail_level r = some (dropNulls r) ∧
     project_instance detail_level r = project_instance "full" r) ∧
    (project_network detail_level r = network_full_info r ∧
     project_network detail_level r = project_network "full" r) ∧
    (project_image detail_level r = some (dropNulls r) ∧
     project_image detail_level r = project_image "full" r) ∧
    (project_compute_service detail_level r = dropNulls r ∧
     project_compute_service detail_level r = project_compute_service "full" r) ∧
    (project_network_agent detail_level r = some (dropNulls r) ∧
     project_network_agent detail_level r = project_network_agent "full" r) ∧
    (project_service detail_level r = some (dropNulls r) ∧
     project_service detail_level r = project_service "full" r) ∧
    format_instances_summary vs detail_level = format_instances_summary vs "full" ∧
    format_volumes_summary vs detail_level = format_volumes_summary vs "full" ∧
    format_networks_summary vs detail_level = format_networks_summary vs "full" ∧
    format_images_summary vs detail_level = format_images_summary vs "full" ∧
    format_compute_services_summary vs detail_level =
      format_compute_services_summary vs "full" ∧
    format_network_agents_summary vs detail_level =
      format_network_agents_summary vs "full" ∧
    format_volume_services_summary vs detail_level =
      format_volume_services_summary vs "full" ∧
    format_services_summary vs detail_level = format_services_summary vs "full" := by
  refine ⟨⟨?_, ?_⟩, ⟨?_, ?_⟩, ⟨?_, ?_⟩, ⟨?_, ?_⟩, ⟨?_, ?_⟩, ⟨?_, ?_⟩, ⟨?_, ?_⟩,
    format_instances_summary_nonbasic detail_level h1 vs,
    format_volumes_summary_nonbasic detail_level h1 vs,
    format_networks_summary_nonbasic detail_level h1 vs,
    format_images_summary_nonbasic detail_level h1 vs,
    format_compute_services_summary_nonbasic detail_level h1 vs,
    format_network_agents_summary_nonbasic detail_level h1 vs,
    format_volume_services_summary_nonbasic detail_level h1 vs,
    format_services_summary_nonbasic detail_level h1 vs⟩
  · unfold project_volume
    rw [if_neg h1, if_neg h2]
  · unfold project_volume
    rw [if_neg h1, if_neg h2, if_neg (by decide), if_neg (by decide)]
  · unfold project_instance
    rw [if_neg h1, if_neg h2]
  · unfold project_instance
    rw [if_neg h1, if_neg h2, if_neg (by decide), if_neg (by decide)]
  · unfold project_network
    rw [if_neg h1, if_neg h2]
  · unfold project_network
    rw [if_neg h1, if_neg h2, if_neg (by decide), if_neg (by decide)]
  · unfold project_image
    rw [if_neg h1, if_neg h2]
  · unfold project_image
    rw [if_neg h1, if_neg h2, if_neg (by decide), if_neg (by decide)]
  · unfold project_compute_service
    rw [if_neg h1, if_neg h2]
  · unfold project_compute_service
    rw [if_neg h1, if_neg h2, if_neg (by decide), if_neg (by decide)]
  · unfold project_network_agent
    rw [if_neg h1, if_neg h2]
  · unfold project_network_agent
    rw [if_neg h1, if_neg h2, if_neg (by decide), if_neg (by decide)]
  · unfold project_service
    rw [if_neg h1, if_neg h2]
  · unfold project_service
    rw [if_neg h1, if_neg h2, if_neg (by decide), if_neg (by decide)]

/-- witness for C9 at the misspelled tier "fulll", exercising the volume and
network projections and the volume and identity-service formatters. -/
theorem claim_C9_unknown_tier_is_full_witness :
    ("fulll" ≠ "basic") ∧ ("fulll" ≠ "detailed") ∧
    (project_volume "fulll" [("id", Val.str "v1"), ("extra", Val.null)] =
       some (dropNulls [("id", Val.str "v1"), ("extra", Val.null)]) ∧
     project_volume "fulll" [("id", Val.str "v1"), ("extra", Val.null)] =
       project_volume "full" [("id", Val.str "v1"), ("extra", Val.null)]) ∧
    (project_network "fulll" [("id", Val.str "v1"), ("extra", Val.null)] =
       network_full_info [("id", Val.str "v1"), ("extra", Val.null)] ∧
     project_network "fulll" [("id", Val.str "v1"), ("extra", Val.null)] =
       project_network "full" [("id", Val.str "v1"), ("extra", Val.null)]) ∧
    format_volumes_summary [[("id", Val.str "v1"), ("extra", Val.null)]] "fulll" =
      format_volumes_summary [[("id", Val.str "v1"), ("extra", Val.null)]] "full" ∧
    format_services_summary [[("id", Val.str "v1"), ("extra", Val.null)]] "fulll" =
      format_services_summary [[("id", Val.str "v1"), ("extra", Val.null)]] "full" := by
  have h := claim_C9_unknown_tier_is_full "fulll" [("id", Val.str "v1"), ("extra", Val.null)]
    [[("id", Val.str "v1"), ("extra", Val.null)]] (by decide) (by decide)
  exact ⟨by decide, by decide, h.1, h.2.2.1,
    h.2.2.2.2.2.2.2.2.1, h.2.2.2.2.2.2.2.2.2.2.2.2.2.2⟩

/-- C10: formatting is not total on full-tier projections: the full tier drops
null fields while the formatter unconditionally subscripts the headline keys,
so a volume with a null size projects at the full tier to a record whose
formatting raises KeyError on "size"; the basic and detailed projections
always supply the headline keys, so their formatting succeeds. -/
theorem claim_C10_format_partial_on_full :
    (project_volume "full"
        [("id", Val.str "v1"), ("name", Val.str "a"), ("status", Val.str "ok"), ("size", Val.null)] =
      some [("id", Val.str "v1"), ("name", Val.str "a"), ("status", Val.str "ok")] ∧
     format_volumes_summary
        [[("id", Val.str "v1"), ("name", Val.str "a"), ("status", Val.str "ok")]] "full" =
      Except.error "\x27size\x27") ∧
    (∀ (r p : Rec), project_volume "basic" r = some p →
      ∃ s, format_volumes_summary [p] "basic" = Except.ok s) ∧
    (∀ (r p : Rec), project_volume "detailed" r = some p →
      ∃ s, format_volumes_summary [p] "detailed" = Except.ok s) := by
  refine ⟨⟨rfl, rfl⟩, ?_, ?_⟩
  · intro r p hp
    unfold project_volume at hp
    rw [if_pos rfl] at hp
    split at hp
    · injection hp with hp
      subst hp
      exact ⟨_, rfl⟩
    · exact absurd hp (by simp)
  · intro r p hp
    unfold project_volume at hp
    rw [if_neg (by decide), if_pos rfl] at hp
    split at hp
    · injection hp with hp
      subst hp
      exact ⟨_, rfl⟩
    · exact absurd hp (by simp)

/-- witness for C10's basic-tier totality at a concrete record. -/
theorem claim_C10_format_partial_on_full_witness :
    (project_volume "basic"
        [("id", Val.str "v1"), ("name", Val.str "a"), ("status", Val.str "ok"), ("size", Val.null)] =
      some [("id", Val.str "v1"), ("name", Val.str "a"), ("status", Val.str "ok"), ("size", Val.null)]) ∧
    (∃ s, format_volumes_summary
        [[("id", Val.str "v1"), ("name", Val.str "a"), ("status", Val.str "ok"), ("size", Val.null)]]
        "basic" = Except.ok s) :=
  ⟨rfl,
   claim_C10_format_partial_on_full.2.1
     [("id", Val.str "v1"), ("name", Val.str "a"), ("status", Val.str "ok"), ("size", Val.null)]
     [("id", Val.str "v1"), ("name", Val.str "a"), ("status", Val.str "ok"), ("size", Val.null)]
     rfl⟩

/-- C7: the volume formatter decides the bootable line by comparing the
projected value against the string "true": the affirmative token appears iff
the value is the string "true", and any other value — including a genuine
boolean True — renders the negative token, whereas the identically-patterned
network shared flag is tested by real truthiness, so boolean True renders
affirmative there. Two concrete formatter runs exhibit both behaviours. -/
theorem claim_C7_bootable_string_comparison :
    (∀ b : Val, bootableToken b = "是" ↔ b = Val.str "true") ∧
    bootableToken (Val.bool true) = "否" ∧
    truthyToken (Val.bool true) = "是" ∧
    format_volumes_summary
      [[("id", Val.str "v1"), ("name", Val.str "a"), ("status", Val.str "in-use"),
        ("size", Val.int 1), ("bootable", Val.bool true)]] "detailed" =
      Except.ok "找到 1 个OpenStack卷:\n\n1. ID: v1\n   名称: a\n   状态: in-use\n   大小: 1 GB\n   可启动: 否\n\n" ∧
    format_networks_summary
      [[("id", Val.str "n1"), ("name", Val.str "net"), ("status", Val.str "ACTIVE"),
        ("is_shared", Val.bool true)]] "basic" =
      Except.ok "找到 1 个OpenStack网络:\n\n1. ID: n1\n   名称: net\n   状态: ACTIVE\n   共享: 是\n   外部网络: 否\n\n" := by
  refine ⟨?_, rfl, rfl, rfl, rfl⟩
  intro b
  cases b with
  | str s =>
    simp only [bootableToken, valEqStr, Val.str.injEq]
    by_cases hs : s = "true"
    · simp [hs]
    · simp [hs]
  | int n => simp [bootableToken, valEqStr]
  | bool c => simp [bootableToken, valEqStr]
  | null => simp [bootableToken, valEqStr]
  | list xs => simp [bootableToken, valEqStr]
  | dict xs => simp [bootableToken, valEqStr]

/-- witness for C7 applying the characterization at the string "true". -/
theorem claim_C7_bootable_string_comparison_witness :
    bootableToken (Val.str "true") = "是" :=
  (claim_C7_bootable_string_comparison.1 (Val.str "true")).mpr rfl

/-- C2: each of the eight resource kinds has a query processor implementing
the fetch/format/process pattern, and the dispatcher of `call_tool` maps each
of the eight advertised tool names — including get_volume_services — to that
kind's query processor, so every advertised tool invocation dispatches. -/
theorem claim_C2_dispatch_total :
    tool_processor "get_instances" = some process_instance_query ∧
    tool_processor "get_volumes" = some process_volume_query ∧
    tool_processor "get_networks" = some process_network_query ∧
    tool_processor "get_images" = some process_image_query ∧
    tool_processor "get_compute_services" = some process_compute_service_query ∧
    tool_processor "get_network_agents" = some process_network_agent_query ∧
    tool_processor "get_volume_services" = some process_volume_service_query ∧
    tool_processor "get_services" = some process_service_query ∧
    advertised_tools.all (fun n => (tool_processor n).isSome) = true :=
  ⟨rfl, rfl, rfl, rfl, rfl, rfl, rfl, rfl, rfl⟩

/-- C6: for every identity-service query at a tier other than basic, each
processed service record triggers exactly one secondary endpoint fetch keyed
by that record's id — so the fetch log is exactly the ids of the records that
survive filtering and truncation, in order — and the projected endpoints are
attached under the endpoints key as a nested list of id/interface/region/url
dictionaries; at the basic tier no secondary fetch is issued. -/
theorem claim_C6_endpoint_fetches :
    (∀ (endpointsOf : Val → List Rec) (detail_level : String) (s info : Rec) (cs : List Val),
      detail_level ≠ "basic" →
      service_step endpointsOf detail_level s = some (info, cs) →
      ∃ sid peps, lookupRec s "id" = some sid ∧ cs = [sid] ∧
        project_endpoints (endpointsOf sid) = some peps ∧
        lookupRec info "endpoints" = some (.list (peps.map .dict))) ∧
    (∀ (endpointsOf : Val → List Rec) (s info : Rec) (cs : List Val),
      service_step endpointsOf "basic" s = some (info, cs) → cs = []) ∧
    (∀ (endpointsOf : Val → List Rec) (filter_value detail_level : String) (limit : Nat)
      (fetched ss out : List Rec) (calls : List Val),
      detail_level ≠ "basic" →
      filter_identity_services filter_value fetched = some ss →
      get_services endpointsOf filter_value limit detail_level fetched = some (out, calls) →
      mapOpt (fun r => lookupRec r "id") (ss.take limit) = some calls) ∧
    (∀ (endpointsOf : Val → List Rec) (filter_value : String) (limit : Nat)
      (fetched out : List Rec) (calls : List Val),
      get_services endpointsOf filter_value limit "basic" fetched = some (out, calls) →
      calls = []) := by
  refine ⟨?_, ?_, ?_, ?_⟩
  · intro endpointsOf detail_level s info cs hd h
    exact service_step_spec endpointsOf detail_level s info cs hd h
  · intro endpointsOf s info cs h
    exact service_step_basic_calls endpointsOf s info cs h
  · intro endpointsOf filter_value detail_level limit fetched ss out calls hd hfil hrun
    unfold get_services at hrun
    rw [hfil] at hrun
    replace hrun : service_steps endpointsOf detail_level (ss.take limit) = some (out, calls) := hrun
    exact service_steps_calls endpointsOf detail_level hd (ss.take limit) out calls hrun
  · intro endpointsOf filter_value limit fetched out calls hrun
    unfold get_services at hrun
    cases hfil : filter_identity_services filter_value fetched with
    | none => rw [hfil] at hrun; exact absurd hrun (by simp)
    | some ss =>
      rw [hfil] at hrun
      replace hrun : service_steps endpointsOf "basic" (ss.take limit) = some (out, calls) := hrun
      exact service_steps_basic_calls endpointsOf (ss.take limit) out calls hrun

/-- witness for C6 on one concrete identity service at the detailed tier. -/
theorem claim_C6_endpoint_fetches_witness :
    (("detailed" : String) ≠ "basic") ∧
    mapOpt (fun r => lookupRec r "id")
      (([[("id", Val.str "s1"), ("type", Val.str "identity")]] : List Rec).take 3) =
      some [Val.str "s1"] :=
  ⟨by decide,
   claim_C6_endpoint_fetches.2.2.1 (fun _ => []) "" "detailed" 3
     [[("id", Val.str "s1"), ("type", Val.str "identity")]]
     [[("id", Val.str "s1"), ("type", Val.str "identity")]]
     [[("id", Val.str "s1"), ("name", Val.str "未知"), ("type", Val.str "identity"),
       ("description", Val.str ""), ("enabled", Val.bool true), ("endpoints", Val.list [])]]
     [Val.str "s1"] (by decide) rfl rfl⟩

/-- C1 (counterexample): the claim asserts that a missing or null instance
name makes the name clause evaluate false without error, so an instance whose
name is null and whose id does not contain the filter should be filtered out;
instead the unguarded instance predicate raises (none), the whole filter
comprehension raises with it, even though the spec-worded contract evaluates
to false at that record. -/
theorem claim_C1_counterexample :
    instance_match "x" [("id", Val.str "i1"), ("name", Val.null)] = none ∧
    filter_instances "x" [[("id", Val.str "i1"), ("name", Val.null)]] = none ∧
    spec_matches ["name"] "x" [("id", Val.str "i1"), ("name", Val.null)] = false :=
  ⟨rfl, rfl, rfl⟩

/-- C1 (amended): every filter stage keeps everything on an empty filter; on a
non-empty filter the volume/network/image predicate agrees with the
spec-worded contract — name-like field contains the filter case-insensitively
or the id contains it case-sensitively, a null (or empty) name evaluating its
clause false without error — whenever the id is a string and the name field is
present as a string or null; the hasattr-guarded compute-service,
network-agent and identity-service predicates agree with the contract — an
absent field evaluating its clause false without error — whenever each
declared field is absent or a string; the instance predicate agrees with the
contract only when the name is present as a string, and a null instance name
instead raises, aborting the whole filter (as does a null value behind a
hasattr guard). -/
theorem claim_C1_filter_contract :
    (∀ rs : List Rec,
      filter_instances "" rs = some rs ∧ filter_volumes "" rs = some rs ∧
      filter_networks "" rs = some rs ∧ filter_images "" rs = some rs ∧
      filter_compute_services "" rs = some rs ∧ filter_network_agents "" rs = some rs ∧
      filter_identity_services "" rs = some rs) ∧
    (∀ (filter_value : String) (r : Rec) (i : String) (nm : Val),
      filter_value ≠ "" →
      lookupRec r "id" = some (Val.str i) →
      lookupRec r "name" = some nm →
      ((∃ s, nm = Val.str s) ∨ nm = Val.null) →
      name_id_match filter_value r = some (spec_matches ["name"] filter_value r)) ∧
    (∀ (filter_value : String) (r : Rec) (i s : String),
      lookupRec r "id" = some (Val.str i) →
      lookupRec r "name" = some (Val.str s) →
      instance_match filter_value r = some (spec_matches ["name"] filter_value r)) ∧
    (∀ (filter_value : String) (S : List Rec) (r : Rec),
      filter_value ≠ "" → r ∈ S → lookupRec r "name" = some Val.null →
      filter_instances filter_value S = none) ∧
    (∀ (filter_value : String) (r : Rec),
      strOrAbsent r "binary" → strOrAbsent r "host" → strOrAbsent r "id" →
      compute_service_match filter_value r =
        some (spec_matches ["binary", "host"] filter_value r)) ∧
    (∀ (filter_value : String) (r : Rec),
      strOrAbsent r "agent_type" → strOrAbsent r "host" → strOrAbsent r "id" →
      network_agent_match filter_value r =
        some (spec_matches ["agent_type", "host"] filter_value r)) ∧
    (∀ (filter_value : String) (r : Rec),
      strOrAbsent r "name" → strOrAbsent r "type" → strOrAbsent r "id" →
      identity_service_match filter_value r =
        some (spec_matches ["name", "type"] filter_value r)) ∧
    (∀ (filter_value : String) (r : Rec),
      lookupRec r "binary" = some Val.null →
      compute_service_match filter_value r = none) := by
  refine ⟨?_, ?_, ?_, ?_, ?_, ?_, ?_, ?_⟩
  · intro rs
    exact ⟨rfl, rfl, rfl, rfl, rfl, rfl, rfl⟩
  · rintro filter_value r i nm hf hid hnm (⟨s, rfl⟩ | rfl)
    · by_cases hs : s = ""
      · subst hs
        simp [name_id_match, hnm, truthy, idClause, hid, spec_matches, spec_name_clause,
          spec_id_clause, containsCI_empty_left filter_value hf]
      · by_cases hci : containsCI s filter_value
        · simp [name_id_match, hnm, truthy, hs, hci, spec_matches, spec_name_clause,
            spec_id_clause, hid]
        · simp [name_id_match, hnm, truthy, hs, hci, idClause, hid, spec_matches,
            spec_name_clause, spec_id_clause]
    · simp [name_id_match, hnm, truthy, idClause, hid, spec_matches, spec_name_clause,
        spec_id_clause]
  · intro filter_value r i s hid hnm
    by_cases hci : containsCI s filter_value
    · simp [instance_match, hnm, hci, spec_matches, spec_name_clause, spec_id_clause, hid]
    · simp [instance_match, hnm, hci, idClause, hid, spec_matches, spec_name_clause,
        spec_id_clause]
  · intro filter_value S r hf hmem hnull
    unfold filter_instances
    rw [if_neg hf]
    exact pyFilter_none_of_mem _ S r hmem (by simp [instance_match, hnull])
  · intro filter_value r h1 h2 h3
    unfold compute_service_match
    rw [hasattrCI_spec r "binary" filter_value h1, hasattrCI_spec r "host" filter_value h2,
      hasattrCS_spec r filter_value h3, orO_some, orO_some]
    simp [spec_matches, Bool.or_assoc]
  · intro filter_value r h1 h2 h3
    unfold network_agent_match
    rw [hasattrCI_spec r "agent_type" filter_value h1, hasattrCI_spec r "host" filter_value h2,
      hasattrCS_spec r filter_value h3, orO_some, orO_some]
    simp [spec_matches, Bool.or_assoc]
  · intro filter_value r h1 h2 h3
    unfold identity_service_match
    rw [hasattrCI_spec r "name" filter_value h1, hasattrCI_spec r "type" filter_value h2,
      hasattrCS_spec r filter_value h3, orO_some, orO_some]
    simp [spec_matches, Bool.or_assoc]
  · intro filter_value r h
    simp [compute_service_match, hasattrCI, h, orO]

/-- witness for C1's amended contract: a null-named volume record filters to
false without error, a string-named instance follows the contract, a
null-named instance aborts the filter, and an absent compute-service binary
evaluates false without error. -/
theorem claim_C1_filter_contract_witness :
    (name_id_match "a" [("id", Val.str "v1"), ("name", Val.null)] =
       some (spec_matches ["name"] "a" [("id", Val.str "v1"), ("name", Val.null)])) ∧
    (instance_match "a" [("id", Val.str "i1"), ("name", Val.str "web")] =
       some (spec_matches ["name"] "a" [("id", Val.str "i1"), ("name", Val.str "web")])) ∧
    (filter_instances "a" [[("id", Val.str "i1"), ("name", Val.null)]] = none) ∧
    (compute_service_match "a" [("id", Val.str "c1")] =
       some (spec_matches ["binary", "host"] "a" [("id", Val.str "c1")])) :=
  ⟨claim_C1_filter_contract.2.1 "a" [("id", Val.str "v1"), ("name", Val.null)] "v1" Val.null
     (by decide) rfl rfl (Or.inr rfl),
   claim_C1_filter_contract.2.2.1 "a" [("id", Val.str "i1"), ("name", Val.str "web")] "i1" "web"
     rfl rfl,
   claim_C1_filter_contract.2.2.2.1 "a" [[("id", Val.str "i1"), ("name", Val.null)]]
     [("id", Val.str "i1"), ("name", Val.null)] (by decide) (by simp) rfl,
   claim_C1_filter_contract.2.2.2.2.1 "a" [("id", Val.str "c1")]
     (Or.inl rfl) (Or.inl rfl) (Or.inr ⟨"c1", rfl⟩)⟩

end OpenStackMCP
